import Mathlib

/-!
Shallow embedding of the plugin-validation script
`.github/scripts/validate_plugins.py`.

The script walks a `plugins/` directory, validates each plugin directory
(manifest fields, README presence, skills and commands presence), validates
the marketplace registry file `.claude-plugin/marketplace.json`, cross-checks
entry versions against the collected plugin manifests, and maps the report to
a process exit status.

Modelling decisions:
* Parsed JSON data is modelled by `PyValue`, covering the Python values that
  `json.loads` can produce (with `PyValue.none` doubling as Python `None`,
  exactly as in the script, where `json.loads("null")` and the loader's
  error sentinel coincide).  Dictionaries are association lists; keys coming
  out of `json.loads` are unique (duplicate keys in the source text collapse
  to the last occurrence before the script ever sees them).
* A file on disk is a `FileState`: absent, unreadable (the read raises an
  `OSError` other than `FileNotFoundError`, e.g. permission denied or the
  path being a directory), present with syntactically invalid JSON, or
  present and parsed to a `PyValue`.
* Python exceptions are modelled with `Except`; the error value carries the
  report as accumulated at the moment of the raise, because the Python report
  object is mutated in place and already holds those outcomes when the
  exception unwinds the stack.
* `print` calls are pure output and are not modelled, except that the driver
  result records whether the summary block was reached.
-/

/-- A Python value as produced by `json.loads` (plus `None`, which is both
the parse of the JSON literal `null` and the error sentinel of the loader). -/
inductive PyValue where
  | none
  | bool (b : Bool)
  | int (n : Int)
  | str (s : String)
  | list (xs : List PyValue)
  | dict (kvs : List (String × PyValue))

/-- An exception class that the script can raise and does not catch. -/
inductive PyErr where
  | osError
  | typeError
  | attributeError
deriving DecidableEq

/-- Python coerces `bool` to `int` for comparisons: `True == 1`. -/
def pyBoolInt (b : Bool) : Int :=
  if b then 1 else 0

mutual

/-- Python `==` on JSON-shaped values (with the `bool`/`int` coercion). -/
def pyBeq : PyValue → PyValue → Bool
  | PyValue.none, PyValue.none => true
  | PyValue.bool a, PyValue.bool b => a == b
  | PyValue.bool a, PyValue.int b => pyBoolInt a == b
  | PyValue.int a, PyValue.bool b => a == pyBoolInt b
  | PyValue.int a, PyValue.int b => a == b
  | PyValue.str a, PyValue.str b => a == b
  | PyValue.list a, PyValue.list b => pyBeqList a b
  | PyValue.dict a, PyValue.dict b => pyBeqPairs a b
  | _, _ => false

def pyBeqList : List PyValue → List PyValue → Bool
  | [], [] => true
  | a :: as, b :: bs => pyBeq a b && pyBeqList as bs
  | _, _ => false

def pyBeqPairs : List (String × PyValue) → List (String × PyValue) → Bool
  | [], [] => true
  | (k, v) :: as, (k2, v2) :: bs => k == k2 && pyBeq v v2 && pyBeqPairs as bs
  | _, _ => false

end

/-- Python `x is None`. -/
def PyValue.isNone : PyValue → Bool
  | PyValue.none => true
  | _ => false

/-- Values on which the Python membership test `key in x` does not raise
`TypeError` (containers and strings). -/
def membershipSafe : PyValue → Bool
  | PyValue.dict _ => true
  | PyValue.list _ => true
  | PyValue.str _ => true
  | _ => false

/-- Python truthiness, as used by `if config:` in the driver loop. -/
def pyTruthy : PyValue → Bool
  | PyValue.none => false
  | PyValue.bool b => b
  | PyValue.int n => n != 0
  | PyValue.str s => !s.isEmpty
  | PyValue.list xs => !xs.isEmpty
  | PyValue.dict kvs => !kvs.isEmpty

/-- Values usable as dictionary keys; lists and dicts are unhashable and make
`key in some_dict` raise `TypeError`. -/
def pyHashable : PyValue → Bool
  | PyValue.list _ => false
  | PyValue.dict _ => false
  | _ => true

/-- A single-quote character, as used by Python `repr` of strings. -/
def pySq : String :=
  (Char.ofNat 39).toString

/-- Substring containment on character lists, for Python `needle in haystack`
on strings. -/
def pySubstr (needle : List Char) : List Char → Bool
  | [] => needle.isEmpty
  | c :: rest => needle.isPrefixOf (c :: rest) || pySubstr needle rest

mutual

/-- Python `repr`, restricted to JSON-shaped values. -/
def pyRepr : PyValue → String
  | PyValue.none => "None"
  | PyValue.bool b => if b then "True" else "False"
  | PyValue.int n => toString n
  | PyValue.str s => pySq ++ s ++ pySq
  | PyValue.list xs => "[" ++ pyReprElems xs ++ "]"
  | PyValue.dict kvs => "\x7b" ++ pyReprPairs kvs ++ "\x7d"

def pyReprElems : List PyValue → String
  | [] => ""
  | [x] => pyRepr x
  | x :: xs => pyRepr x ++ ", " ++ pyReprElems xs

def pyReprPairs : List (String × PyValue) → String
  | [] => ""
  | [(k, v)] => pySq ++ k ++ pySq ++ ": " ++ pyRepr v
  | (k, v) :: xs => pySq ++ k ++ pySq ++ ": " ++ pyRepr v ++ ", " ++ pyReprPairs xs

end

/-- Python `str()`, as applied by f-string interpolation. -/
def pyStr : PyValue → String
  | PyValue.str s => s
  | v => pyRepr v

/-- Python `str()` of a list of strings, e.g. `str(["name"])`; this is how the
script renders lists of missing field names inside f-strings. -/
def pyReprStrList (xs : List String) : String :=
  "[" ++ String.intercalate ", " (xs.map fun s => pySq ++ s ++ pySq) ++ "]"

/-- Python membership `needle in v`: key lookup on dicts, element equality on
lists, substring containment on strings, `TypeError` otherwise. -/
def pyIn (needle : String) : PyValue → Except PyErr Bool
  | PyValue.dict kvs => Except.ok (kvs.any fun kv => kv.1 == needle)
  | PyValue.list xs => Except.ok (xs.any fun x => pyBeq x (PyValue.str needle))
  | PyValue.str s => Except.ok (pySubstr needle.toList s.toList)
  | _ => Except.error PyErr.typeError

/-- Lookup in a parsed JSON object. -/
def dictLookup (kvs : List (String × PyValue)) (k : String) : Option PyValue :=
  (kvs.find? fun kv => kv.1 == k).map fun kv => kv.2

/-- Python `v.get(key, default)`: raises `AttributeError` when `v` is not a
dict (lists, strings, numbers and `None` have no `.get` method). -/
def pyGet (v : PyValue) (key : String) (default : PyValue) : Except PyErr PyValue :=
  match v with
  | PyValue.dict kvs =>
    match dictLookup kvs key with
    | Option.some w => Except.ok w
    | Option.none => Except.ok default
  | _ => Except.error PyErr.attributeError

/-- Python iteration `for x in v`: elements of a list, keys of a dict,
characters of a string, `TypeError` otherwise. -/
def pyIter : PyValue → Except PyErr (List PyValue)
  | PyValue.list xs => Except.ok xs
  | PyValue.dict kvs => Except.ok (kvs.map fun kv => PyValue.str kv.1)
  | PyValue.str s => Except.ok (s.toList.map fun c => PyValue.str c.toString)
  | _ => Except.error PyErr.typeError

/-- The list comprehension `[f for f in fields if f not in data]` used by the
script for every required-field check; evaluates memberships left to right and
propagates the first exception. -/
def missingFields : List String → PyValue → Except PyErr (List String)
  | [], _ => Except.ok []
  | f :: rest, data =>
    match pyIn f data with
    | Except.error e => Except.error e
    | Except.ok b =>
      match missingFields rest data with
      | Except.error e => Except.error e
      | Except.ok tail => Except.ok (if b then tail else f :: tail)

/-- Python dict assignment `d[k] = v` on a string-keyed dict. -/
def dictInsert (k : String) (v : PyValue) (d : List (String × PyValue)) :
    List (String × PyValue) :=
  if d.any fun kv => kv.1 == k then
    d.map fun kv => if kv.1 == k then (k, v) else kv
  else
    d ++ [(k, v)]

/-- State of one file on disk, as observed through `Path.exists`,
`Path.read_text` and `json.loads`. -/
inductive FileState where
  | absent
  | unreadable
  | invalidJson
  | parsed (v : PyValue)

/-- `Path.exists()` for the file. -/
def FileState.onDisk : FileState → Bool
  | FileState.absent => false
  | _ => true

/-- `load_json`: `json.loads(path.read_text())` under
`except (json.JSONDecodeError, FileNotFoundError): return None`.
A missing file and unparsable content both yield `None`; any other `OSError`
raised by the read (permission denied, path is a directory, ...) is not in
the `except` tuple and propagates to the caller. -/
def load_json : FileState → Except PyErr PyValue
  | FileState.absent => Except.ok PyValue.none
  | FileState.unreadable => Except.error PyErr.osError
  | FileState.invalidJson => Except.ok PyValue.none
  | FileState.parsed v => Except.ok v

/-- One validation verdict, `ValidationResult` in the script. -/
structure ValidationResult where
  plugin : String
  check : String
  passed : Bool
  message : String
deriving DecidableEq

/-- `str.startswith(w)`. -/
def strStartsWith (s w : String) : Bool :=
  w.toList.isPrefixOf s.toList

/-- `ValidationReport.passed`: `all(r.passed for r in self.results)`. -/
def reportPassed (rs : List ValidationResult) : Bool :=
  rs.all fun r => r.passed

/-- `ValidationReport.errors`: `[r for r in self.results if not r.passed]`. -/
def reportErrors (rs : List ValidationResult) : List ValidationResult :=
  rs.filter fun r => !r.passed

/-- `ValidationReport.warnings`:
`[r for r in self.results if r.passed and r.message.startswith("WARN")]`. -/
def reportWarnings (rs : List ValidationResult) : List ValidationResult :=
  rs.filter fun r => r.passed && strStartsWith r.message "WARN"

/-- One immediate subdirectory of the plugins root, with the files the script
inspects: the manifest `.claude-plugin/plugin.json`, whether `README.md`
exists, and the optional `skills/` and `commands/` directories.  For the two
directories, `Option.none` means the directory does not exist, and
`Option.some files` gives the matches of the script's glob
(`skills/*/SKILL.md`, resp. flat `commands/*.md`). -/
structure PluginDir where
  name : String
  manifest : FileState
  readmeExists : Bool
  skillsDir : Option (List String)
  commandsDir : Option (List String)

/-- The filesystem as the script observes it: whether the plugins root
`plugins/` exists, its subdirectories (non-directory entries are filtered out
by `is_dir()` and never influence the run), and the registry file
`.claude-plugin/marketplace.json`. -/
structure World where
  pluginsRootExists : Bool
  pluginDirs : List PluginDir
  marketplace : FileState

/-- Outcome of a run of `main` that returned normally: the value returned to
`sys.exit`, the report contents, and whether `print_summary` was reached. -/
structure RunResult where
  exitCode : Nat
  report : List ValidationResult
  summaryPrinted : Bool
deriving DecidableEq

def REQUIRED_PLUGIN_FIELDS : List String :=
  ["name", "version", "description"]

def REQUIRED_MARKETPLACE_FIELDS : List String :=
  ["name", "description", "plugins"]

def REQUIRED_MARKETPLACE_PLUGIN_FIELDS : List String :=
  ["name", "version", "description", "source"]

/-- `validate_plugin_json(plugin_dir, report)`: checks the manifest exists,
parses, and has the required fields; returns the parsed manifest on success
and `None` (here `Option.none`) on any recorded failure.  Exceptions escaping
`load_json` or the membership tests propagate, carrying the report as
accumulated. -/
def validate_plugin_json (p : PluginDir) (report : List ValidationResult) :
    Except (PyErr × List ValidationResult) (List ValidationResult × Option PyValue) :=
  if !p.manifest.onDisk then
    Except.ok (report ++ [⟨p.name, "plugin.json", false, "File not found"⟩], Option.none)
  else
    match load_json p.manifest with
    | Except.error e => Except.error (e, report)
    | Except.ok data =>
      if data.isNone then
        Except.ok (report ++ [⟨p.name, "plugin.json", false, "Invalid JSON syntax"⟩],
          Option.none)
      else
        match missingFields REQUIRED_PLUGIN_FIELDS data with
        | Except.error e => Except.error (e, report)
        | Except.ok missing =>
          if !missing.isEmpty then
            Except.ok (report ++ [⟨p.name, "plugin.json", false,
              "Missing required fields: " ++ pyReprStrList missing⟩], Option.none)
          else
            Except.ok (report ++ [⟨p.name, "plugin.json", true, ""⟩], Option.some data)

/-- `validate_readme(plugin_dir, report)`. -/
def validate_readme (p : PluginDir) (report : List ValidationResult) :
    List ValidationResult :=
  if p.readmeExists then
    report ++ [⟨p.name, "README.md", true, ""⟩]
  else
    report ++ [⟨p.name, "README.md", false, "File not found"⟩]

/-- `validate_skill(plugin_dir, report)`. -/
def validate_skill (p : PluginDir) (report : List ValidationResult) :
    List ValidationResult :=
  match p.skillsDir with
  | Option.none =>
    report ++ [⟨p.name, "SKILL.md", true, "WARNING: No skills directory"⟩]
  | Option.some skill_files =>
    if !skill_files.isEmpty then
      report ++ [⟨p.name, "SKILL.md", true, ""⟩]
    else
      report ++ [⟨p.name, "SKILL.md", true, "WARNING: No SKILL.md found"⟩]

/-- `validate_commands(plugin_dir, report)`. -/
def validate_commands (p : PluginDir) (report : List ValidationResult) :
    List ValidationResult :=
  match p.commandsDir with
  | Option.none =>
    report ++ [⟨p.name, "commands", true, "WARNING: No commands directory"⟩]
  | Option.some command_files =>
    if !command_files.isEmpty then
      report ++ [⟨p.name, "commands", true, ""⟩]
    else
      report ++ [⟨p.name, "commands", true, "WARNING: No command files found"⟩]

/-- The `for mp_plugin in data.get("plugins", []):` loop of
`validate_marketplace`, processing registry entries in file order. -/
def marketplaceEntriesLoop :
    List PyValue → List (String × PyValue) → List ValidationResult →
    Except (PyErr × List ValidationResult) (List ValidationResult)
  | [], _, report => Except.ok report
  | mp_plugin :: rest, plugin_configs, report =>
    match pyGet mp_plugin "name" (PyValue.str "unknown") with
    | Except.error e => Except.error (e, report)
    | Except.ok mp_name =>
      match missingFields REQUIRED_MARKETPLACE_PLUGIN_FIELDS mp_plugin with
      | Except.error e => Except.error (e, report)
      | Except.ok missing_fields =>
        if !missing_fields.isEmpty then
          marketplaceEntriesLoop rest plugin_configs
            (report ++ [⟨"marketplace", "plugin:" ++ pyStr mp_name, false,
              "Missing fields: " ++ pyReprStrList missing_fields⟩])
        else
          if !pyHashable mp_name then
            Except.error (PyErr.typeError, report)
          else
            match plugin_configs.find? fun kv => pyBeq (PyValue.str kv.1) mp_name with
            | Option.none => marketplaceEntriesLoop rest plugin_configs report
            | Option.some kv =>
              match pyGet kv.2 "version" PyValue.none with
              | Except.error e => Except.error (e, report)
              | Except.ok plugin_version =>
                match pyGet mp_plugin "version" PyValue.none with
                | Except.error e => Except.error (e, report)
                | Except.ok mp_version =>
                  if !pyBeq plugin_version mp_version then
                    marketplaceEntriesLoop rest plugin_configs
                      (report ++ [⟨"marketplace", "version:" ++ pyStr mp_name, false,
                        "Version mismatch: plugin.json=" ++ pyStr plugin_version ++
                          ", marketplace.json=" ++ pyStr mp_version⟩])
                  else
                    marketplaceEntriesLoop rest plugin_configs
                      (report ++ [⟨"marketplace", "version:" ++ pyStr mp_name, true, ""⟩])

/-- `validate_marketplace(report, plugin_configs)`; the registry file's state
is passed explicitly where the script reads the fixed path
`MARKETPLACE_FILE`. -/
def validate_marketplace (marketplace : FileState) (report : List ValidationResult)
    (plugin_configs : List (String × PyValue)) :
    Except (PyErr × List ValidationResult) (List ValidationResult) :=
  if !marketplace.onDisk then
    Except.ok (report ++
      [⟨"marketplace", "marketplace.json", true, "WARNING: File not found"⟩])
  else
    match load_json marketplace with
    | Except.error e => Except.error (e, report)
    | Except.ok data =>
      if data.isNone then
        Except.ok (report ++
          [⟨"marketplace", "marketplace.json", false, "Invalid JSON syntax"⟩])
      else
        match missingFields REQUIRED_MARKETPLACE_FIELDS data with
        | Except.error e => Except.error (e, report)
        | Except.ok missing =>
          if !missing.isEmpty then
            Except.ok (report ++ [⟨"marketplace", "marketplace.json", false,
              "Missing required fields: " ++ pyReprStrList missing⟩])
          else
            let report := report ++ [⟨"marketplace", "marketplace.json", true, ""⟩]
            match pyGet data "plugins" (PyValue.list []) with
            | Except.error e => Except.error (e, report)
            | Except.ok plugins =>
              match pyIter plugins with
              | Except.error e => Except.error (e, report)
              | Except.ok entries => marketplaceEntriesLoop entries plugin_configs report

/-- `validate_plugin(plugin_dir, report)`: the four per-plugin checks in
source order; an exception in the manifest check unwinds past the rest. -/
def validate_plugin (p : PluginDir) (report : List ValidationResult) :
    Except (PyErr × List ValidationResult) (List ValidationResult × Option PyValue) :=
  match validate_plugin_json p report with
  | Except.error e => Except.error e
  | Except.ok (report1, config) =>
    let report2 := validate_readme p report1
    let report3 := validate_skill p report2
    let report4 := validate_commands p report3
    Except.ok (report4, config)

/-- Stable insertion into a name-sorted list, for `sorted(PLUGINS_DIR.iterdir())`
(all paths share the `plugins/` component, so path order is name order). -/
def insertByName (p : PluginDir) : List PluginDir → List PluginDir
  | [] => [p]
  | q :: qs => if p.name ≤ q.name then p :: q :: qs else q :: insertByName p qs

/-- Sorting of the discovered plugin directories. -/
def sortByName : List PluginDir → List PluginDir
  | [] => []
  | p :: ps => insertByName p (sortByName ps)

/-- The `for plugin_dir in plugin_dirs:` loop of `main`, accumulating the
report and `plugin_configs` (keyed by directory name, `if config:` guarding
the insertion by truthiness). -/
def mainLoop : List PluginDir → List ValidationResult → List (String × PyValue) →
    Except (PyErr × List ValidationResult)
      (List ValidationResult × List (String × PyValue))
  | [], report, configs => Except.ok (report, configs)
  | p :: rest, report, configs =>
    match validate_plugin p report with
    | Except.error e => Except.error e
    | Except.ok (report1, config) =>
      match config with
      | Option.some c =>
        if pyTruthy c then
          mainLoop rest report1 (dictInsert p.name c configs)
        else
          mainLoop rest report1 configs
      | Option.none => mainLoop rest report1 configs

/-- `main()`: directory discovery, the per-plugin loop, the marketplace check,
the summary, and the returned exit code.  The two early `return 1` branches
for a missing plugins root and for an empty plugins root record nothing and
skip the summary. -/
def main' (w : World) : Except (PyErr × List ValidationResult) RunResult :=
  if !w.pluginsRootExists then
    Except.ok ⟨1, [], false⟩
  else
    let plugin_dirs := sortByName w.pluginDirs
    if plugin_dirs.isEmpty then
      Except.ok ⟨1, [], false⟩
    else
      match mainLoop plugin_dirs [] [] with
      | Except.error e => Except.error e
      | Except.ok (report, plugin_configs) =>
        match validate_marketplace w.marketplace report plugin_configs with
        | Except.error e => Except.error e
        | Except.ok report1 =>
          Except.ok ⟨if reportPassed report1 then 0 else 1, report1, true⟩

/-- Exit status of the operating-system process: the value handed to
`sys.exit` on normal return, and 1 when an uncaught exception terminates the
interpreter (CPython exits with status 1 after printing a traceback). -/
def processExit : Except (PyErr × List ValidationResult) RunResult → Nat
  | Except.error _ => 1
  | Except.ok r => r.exitCode

/-- The outcomes recorded in the report object by the time the process ends,
whether the run returned normally or died on an uncaught exception. -/
def recordedResults : Except (PyErr × List ValidationResult) RunResult →
    List ValidationResult
  | Except.error e => e.2
  | Except.ok r => r.report

/-- Total membership test on values where Python `in` does not raise, used by
the spec-side restatement of the manifest check. -/
def specMem (f : String) : PyValue → Bool
  | PyValue.dict kvs => kvs.any fun kv => kv.1 == f
  | PyValue.list xs => xs.any fun x => pyBeq x (PyValue.str f)
  | PyValue.str s => pySubstr f.toList s.toList
  | _ => false

/-- Spec-side restatement of the manifest check (refinement target for the
amended claim about `validate_plugin_json`): a case analysis on the state of
the manifest file.  "File not found" when absent; the read propagates its
exception when it fails with anything but `FileNotFoundError`; "Invalid JSON
syntax" when the loader yields its `None` sentinel, i.e. for unparsable
content and for the JSON literal `null`; for a loaded value supporting
membership tests, either a message naming exactly the missing required keys
in declared order, or a pass with empty message returning the value; a
`TypeError` propagates for loaded values that support no membership test. -/
def specManifestCheck (p : PluginDir) : Except PyErr (ValidationResult × Option PyValue) :=
  match p.manifest with
  | FileState.absent =>
    Except.ok (⟨p.name, "plugin.json", false, "File not found"⟩, Option.none)
  | FileState.unreadable => Except.error PyErr.osError
  | FileState.invalidJson =>
    Except.ok (⟨p.name, "plugin.json", false, "Invalid JSON syntax"⟩, Option.none)
  | FileState.parsed v =>
    if v.isNone then
      Except.ok (⟨p.name, "plugin.json", false, "Invalid JSON syntax"⟩, Option.none)
    else if membershipSafe v then
      let missing := REQUIRED_PLUGIN_FIELDS.filter fun f => !specMem f v
      if missing.isEmpty then
        Except.ok (⟨p.name, "plugin.json", true, ""⟩, Option.some v)
      else
        Except.ok (⟨p.name, "plugin.json", false,
          "Missing required fields: " ++ pyReprStrList missing⟩, Option.none)
    else
      Except.error PyErr.typeError

/-- A manifest file state for which the manifest check completes without an
uncaught exception: the file may be absent or malformed, but a read failure
other than file-not-found and a parsed value with no membership test are
excluded. -/
def benignManifest : FileState → Bool
  | FileState.absent => true
  | FileState.unreadable => false
  | FileState.invalidJson => true
  | FileState.parsed v => v.isNone || membershipSafe v

/-- Concrete fixture: a complete, well-formed manifest. -/
def demoManifest : List (String × PyValue) :=
  [("name", PyValue.str "demo"), ("version", PyValue.str "1.0"),
   ("description", PyValue.str "A demo plugin")]

/-- Concrete fixture: a plugin directory with a complete manifest, a README,
and neither a skills nor a commands directory. -/
def demoPlugin : PluginDir :=
  ⟨"demo", FileState.parsed (PyValue.dict demoManifest), true, Option.none, Option.none⟩

/-- Concrete fixture: one plugin, no registry file (the spec's Scenario C). -/
def demoWorld : World :=
  ⟨true, [demoPlugin], FileState.absent⟩

/-- The report produced by a run over `demoWorld`. -/
def demoReport : List ValidationResult :=
  [⟨"demo", "plugin.json", true, ""⟩,
   ⟨"demo", "README.md", true, ""⟩,
   ⟨"demo", "SKILL.md", true, "WARNING: No skills directory"⟩,
   ⟨"demo", "commands", true, "WARNING: No commands directory"⟩,
   ⟨"marketplace", "marketplace.json", true, "WARNING: File not found"⟩]

/-- Concrete fixture: a plugin directory whose manifest file exists but whose
read raises an `OSError` other than `FileNotFoundError` (for example a
permission-denied manifest, or `.claude-plugin/plugin.json` being a
directory). -/
def unreadablePlugin : PluginDir :=
  ⟨"broken", FileState.unreadable, true, Option.none, Option.none⟩

/-- Concrete fixture: a world containing only `unreadablePlugin`. -/
def unreadableWorld : World :=
  ⟨true, [unreadablePlugin], FileState.absent⟩

/-- Concrete fixture: the manifest file parses to the JSON array
`["name", "version", "description"]`, and the registry lists an entry with
the same directory name, so the version cross-check dereferences the stored
array with `.get`. -/
def arrayManifestWorld : World :=
  ⟨true,
   [⟨"demo", FileState.parsed (PyValue.list
      [PyValue.str "name", PyValue.str "version", PyValue.str "description"]),
     true, Option.none, Option.none⟩],
   FileState.parsed (PyValue.dict
     [("name", PyValue.str "mp"), ("description", PyValue.str "d"),
      ("plugins", PyValue.list [PyValue.dict
        [("name", PyValue.str "demo"), ("version", PyValue.str "1.0"),
         ("description", PyValue.str "d"), ("source", PyValue.str "s")]])])⟩

/-- The report accumulated by the `arrayManifestWorld` run at the moment the
`AttributeError` is raised. -/
def arrayManifestReport : List ValidationResult :=
  [⟨"demo", "plugin.json", true, ""⟩,
   ⟨"demo", "README.md", true, ""⟩,
   ⟨"demo", "SKILL.md", true, "WARNING: No skills directory"⟩,
   ⟨"demo", "commands", true, "WARNING: No commands directory"⟩,
   ⟨"marketplace", "marketplace.json", true, ""⟩]

/-- Concrete fixture: a plugin directory whose manifest file contains exactly
the JSON literal `null`. -/
def nullManifestPlugin : PluginDir :=
  ⟨"nulled", FileState.parsed PyValue.none, true, Option.none, Option.none⟩

/-- Registry-entry fixture for the spec's Scenario D: all four required keys,
name matching `demoPlugin`, version "2.0" against the manifest's "1.0". -/
def entryFixture : List (String × PyValue) :=
  [("name", PyValue.str "demo"), ("version", PyValue.str "2.0"),
   ("description", PyValue.str "d"), ("source", PyValue.str "s")]

/-- Registry-entry fixture whose name matches no collected plugin manifest. -/
def ghostEntry : List (String × PyValue) :=
  [("name", PyValue.str "ghost"), ("version", PyValue.str "2.0"),
   ("description", PyValue.str "d"), ("source", PyValue.str "s")]

/-- The collected `plugin_configs` after a successful run over `demoPlugin`. -/
def cfgsFixture : List (String × PyValue) :=
  [("demo", PyValue.dict demoManifest)]

theorem pyIn_safe (f : String) (v : PyValue) (h : membershipSafe v = true) :
    pyIn f v = Except.ok (specMem f v) := by
  cases v with
  | dict kvs => rfl
  | list xs => rfl
  | str s => rfl
  | none => simp [membershipSafe] at h
  | bool b => simp [membershipSafe] at h
  | int n => simp [membershipSafe] at h

theorem missingFields_safe (fields : List String) (v : PyValue)
    (h : membershipSafe v = true) :
    missingFields fields v = Except.ok (fields.filter fun f => !specMem f v) := by
  induction fields with
  | nil => rfl
  | cons f rest ih =>
    simp only [missingFields, pyIn_safe f v h, ih]
    cases hm : specMem f v <;> simp [hm, List.filter_cons]

theorem reportPassed_iff (rs : List ValidationResult) :
    reportPassed rs = true ↔ reportErrors rs = [] := by
  simp [reportPassed, reportErrors, List.all_eq_true, List.filter_eq_nil_iff]

theorem insertByName_ne_nil (p : PluginDir) (l : List PluginDir) :
    insertByName p l ≠ [] := by
  cases l with
  | nil => simp [insertByName]
  | cons q qs =>
    simp only [insertByName]
    split <;> simp

theorem sortByName_eq_nil_iff (l : List PluginDir) :
    sortByName l = [] ↔ l = [] := by
  cases l with
  | nil => simp [sortByName]
  | cons p ps => simp [sortByName, insertByName_ne_nil]

theorem any_isEmpty_false {α : Type} (l : List α) (p : α → Bool)
    (h : l.any p = true) : l.isEmpty = false := by
  cases l with
  | nil => simp at h
  | cons a as => rfl

theorem strStartsWith_warn_skills :
    strStartsWith "WARNING: No skills directory" "WARN" = true := rfl

theorem strStartsWith_warn_commands :
    strStartsWith "WARNING: No commands directory" "WARN" = true := rfl

theorem strStartsWith_warn_marketplace :
    strStartsWith "WARNING: File not found" "WARN" = true := rfl

theorem strStartsWith_empty_message :
    strStartsWith "" "WARN" = false := rfl

/-- C1 counterexample: in the spec's Scenario C (one plugin, complete
manifest, README present, no skills or commands directories, registry file
absent) the run does exit 0 with zero errors, but the warnings view holds
THREE outcomes, not two: the absent registry file records a passing outcome
whose message starts with "WARNING", so it lands in the warnings view next to
the no-skills and no-commands warnings. -/
theorem c1_scenarioC_has_three_warnings :
    main' demoWorld = Except.ok ⟨0, demoReport, true⟩ ∧
    reportErrors demoReport = [] ∧
    reportWarnings demoReport =
      [⟨"demo", "SKILL.md", true, "WARNING: No skills directory"⟩,
       ⟨"demo", "commands", true, "WARNING: No commands directory"⟩,
       ⟨"marketplace", "marketplace.json", true, "WARNING: File not found"⟩] ∧
    (reportWarnings demoReport).length = 3 :=
  ⟨rfl, rfl, rfl, rfl⟩

/-- C3 counterexample: a manifest or registry file whose read raises an
`OSError` other than `FileNotFoundError` (permission denied, path is a
directory) is not covered by the `except (json.JSONDecodeError,
FileNotFoundError)` clause, so the exception escapes `load_json` instead of
becoming the `None` sentinel. -/
theorem c3_oserror_escapes_load_json :
    load_json FileState.unreadable = Except.error PyErr.osError := rfl

/-- C3 (amended): `load_json` returns the parsed value on success and the
`None` sentinel when the file is missing or its content fails to parse; only
an I/O failure other than file-not-found escapes as an exception — for every
other file state the call returns normally. -/
theorem c3_load_json_no_escape_otherwise :
    (load_json FileState.absent = Except.ok PyValue.none) ∧
    (load_json FileState.invalidJson = Except.ok PyValue.none) ∧
    (∀ v, load_json (FileState.parsed v) = Except.ok v) ∧
    (∀ f, f ≠ FileState.unreadable → ∃ v, load_json f = Except.ok v) := by
  refine ⟨rfl, rfl, fun v => rfl, fun f h => ?_⟩
  cases f with
  | absent => exact ⟨PyValue.none, rfl⟩
  | unreadable => exact absurd rfl h
  | invalidJson => exact ⟨PyValue.none, rfl⟩
  | parsed v => exact ⟨v, rfl⟩

/-- Witness for the amended C3 theorem at a concrete file state. -/
theorem c3_load_json_no_escape_otherwise_witness :
    ∃ v, load_json FileState.invalidJson = Except.ok v :=
  c3_load_json_no_escape_otherwise.2.2.2 FileState.invalidJson
    (fun h => FileState.noConfusion h)

/-- C4 counterexample: for a plugin directory whose manifest file exists but
cannot be read (an `OSError` other than `FileNotFoundError`), the manifest
check records NO outcome at all and lets the exception escape, contradicting
the claim that exactly one outcome is recorded for every plugin directory. -/
theorem c4_unreadable_manifest_records_nothing :
    validate_plugin_json unreadablePlugin [] = Except.error (PyErr.osError, []) := rfl

/-- C5 counterexample: for the same unreadable-manifest plugin directory,
`validate_plugin` records ZERO outcomes rather than four — the exception
raised inside the manifest check unwinds past the README, skills and
commands checks, so they never run. -/
theorem c5_unreadable_manifest_skips_checks :
    validate_plugin unreadablePlugin [] = Except.error (PyErr.osError, []) := rfl

/-- C9: a plugin manifest file parsing to the JSON array
`["name", "version", "description"]` passes the required-field check (list
membership stands in for key lookup), is stored as the plugin's manifest, and
when a registry entry of the same name reaches the version cross-check, its
`.get("version")` call on the stored array raises `AttributeError`; the run
dies with an uncaught exception (process exit 1 by interpreter convention)
instead of reaching the summary, with only passing outcomes recorded —
including the pass for the array-valued manifest itself. -/
theorem c9_array_manifest_attribute_error :
    main' arrayManifestWorld = Except.error (PyErr.attributeError, arrayManifestReport) ∧
    processExit (main' arrayManifestWorld) = 1 ∧
    arrayManifestReport.head? = Option.some ⟨"demo", "plugin.json", true, ""⟩ ∧
    reportErrors arrayManifestReport = [] :=
  ⟨rfl, rfl, rfl, rfl⟩

/-- C10: the JSON literal `null` parses successfully, but the parse result is
Python `None` — the very value `load_json` returns on parse failure — so the
loader's output on a well-formed `null` file and on an unparsable file are
indistinguishable, and both the plugin manifest check and the registry check
record "Invalid JSON syntax" for a file whose content is syntactically valid
JSON. -/
theorem c10_null_indistinguishable_from_parse_failure :
    load_json (FileState.parsed PyValue.none) = load_json FileState.invalidJson ∧
    validate_plugin_json nullManifestPlugin [] =
      Except.ok ([⟨"nulled", "plugin.json", false, "Invalid JSON syntax"⟩], Option.none) ∧
    validate_marketplace (FileState.parsed PyValue.none) [] [] =
      Except.ok [⟨"marketplace", "marketplace.json", false, "Invalid JSON syntax"⟩] :=
  ⟨rfl, rfl, rfl⟩

/-- C1 (amended): for a run over exactly one plugin directory whose manifest
parses to an object containing name, version and description, with README.md
present, no skills directory, no commands directory and no registry file, the
process exits with status 0, the report contains zero failing outcomes, and
the warnings view contains exactly THREE outcomes: the no-skills-directory
warning, the no-commands-directory warning, and the registry-file-not-found
warning (the registry pass carries a "WARNING: File not found" message and is
therefore part of the warnings view). -/
theorem c1_one_plugin_clean_run (nm : String) (kvs : List (String × PyValue))
    (hn : (kvs.any fun kv => kv.1 == "name") = true)
    (hv : (kvs.any fun kv => kv.1 == "version") = true)
    (hd : (kvs.any fun kv => kv.1 == "description") = true) :
    main' ⟨true,
        [⟨nm, FileState.parsed (PyValue.dict kvs), true, Option.none, Option.none⟩],
        FileState.absent⟩ =
      Except.ok ⟨0,
        [⟨nm, "plugin.json", true, ""⟩,
         ⟨nm, "README.md", true, ""⟩,
         ⟨nm, "SKILL.md", true, "WARNING: No skills directory"⟩,
         ⟨nm, "commands", true, "WARNING: No commands directory"⟩,
         ⟨"marketplace", "marketplace.json", true, "WARNING: File not found"⟩], true⟩ ∧
    reportErrors
        [⟨nm, "plugin.json", true, ""⟩,
         ⟨nm, "README.md", true, ""⟩,
         ⟨nm, "SKILL.md", true, "WARNING: No skills directory"⟩,
         ⟨nm, "commands", true, "WARNING: No commands directory"⟩,
         ⟨"marketplace", "marketplace.json", true, "WARNING: File not found"⟩] = [] ∧
    reportWarnings
        [⟨nm, "plugin.json", true, ""⟩,
         ⟨nm, "README.md", true, ""⟩,
         ⟨nm, "SKILL.md", true, "WARNING: No skills directory"⟩,
         ⟨nm, "commands", true, "WARNING: No commands directory"⟩,
         ⟨"marketplace", "marketplace.json", true, "WARNING: File not found"⟩] =
      [⟨nm, "SKILL.md", true, "WARNING: No skills directory"⟩,
       ⟨nm, "commands", true, "WARNING: No commands directory"⟩,
       ⟨"marketplace", "marketplace.json", true, "WARNING: File not found"⟩] := by
  have hkvs : kvs.isEmpty = false := any_isEmpty_false _ _ hn
  refine ⟨?_, ?_, ?_⟩
  · simp [main', sortByName, insertByName, mainLoop, validate_plugin,
      validate_plugin_json, FileState.onDisk, load_json, PyValue.isNone,
      missingFields, pyIn, REQUIRED_PLUGIN_FIELDS, hn, hv, hd,
      validate_readme, validate_skill, validate_commands, pyTruthy, hkvs,
      dictInsert, validate_marketplace, reportPassed]
  · simp [reportErrors, List.filter]
  · simp [reportWarnings, List.filter, strStartsWith_warn_skills,
      strStartsWith_warn_commands, strStartsWith_warn_marketplace,
      strStartsWith_empty_message]

/-- Witness for the amended C1 theorem at the spec's concrete Scenario C. -/
theorem c1_one_plugin_clean_run_witness :
    main' ⟨true,
        [⟨"demo", FileState.parsed (PyValue.dict demoManifest), true,
          Option.none, Option.none⟩],
        FileState.absent⟩ =
      Except.ok ⟨0,
        [⟨"demo", "plugin.json", true, ""⟩,
         ⟨"demo", "README.md", true, ""⟩,
         ⟨"demo", "SKILL.md", true, "WARNING: No skills directory"⟩,
         ⟨"demo", "commands", true, "WARNING: No commands directory"⟩,
         ⟨"marketplace", "marketplace.json", true, "WARNING: File not found"⟩], true⟩ :=
  (c1_one_plugin_clean_run "demo" demoManifest (by decide) (by decide) (by decide)).1

/-- C2 counterexample: a run whose plugins root exists and holds one
subdirectory, but whose single manifest file is unreadable (permission
denied): the run dies on the escaping `OSError`, so the operating-system exit
status is 1 even though not a single recorded outcome has `passed = false` —
the claimed equivalence between exit 0 and the absence of failing outcomes
does not hold for every such run. -/
theorem c2_unreadable_manifest_breaks_equivalence :
    unreadableWorld.pluginsRootExists = true ∧
    unreadableWorld.pluginDirs ≠ [] ∧
    processExit (main' unreadableWorld) = 1 ∧
    reportErrors (recordedResults (main' unreadableWorld)) = [] := by
  refine ⟨rfl, ?_, rfl, rfl⟩
  simp [unreadableWorld]

/-- C2 (amended): for every run in which the plugins root exists and contains
at least one subdirectory AND which terminates normally (no uncaught
exception), the exit status is 0 if and only if no recorded outcome has
`passed = false`; and whenever the plugins root is missing, or exists with no
subdirectories, the run returns exit status 1 directly, with no outcome
recorded and no summary printed. -/
theorem c2_exit_status_from_report :
    (∀ w r, w.pluginsRootExists = true → w.pluginDirs ≠ [] →
        main' w = Except.ok r → (r.exitCode = 0 ↔ reportErrors r.report = [])) ∧
    (∀ w, w.pluginsRootExists = false ∨ w.pluginDirs = [] →
        main' w = Except.ok ⟨1, [], false⟩) := by
  constructor
  · intro w r h1 h2 h3
    have hsort : (sortByName w.pluginDirs).isEmpty = false := by
      cases hs : sortByName w.pluginDirs with
      | nil => exact absurd ((sortByName_eq_nil_iff _).1 hs) h2
      | cons a as => rfl
    simp only [main', h1, Bool.not_true, hsort, Bool.false_eq_true, if_false] at h3
    cases hml : mainLoop (sortByName w.pluginDirs) [] [] with
    | error e => rw [hml] at h3; exact absurd h3 (by simp)
    | ok x =>
      obtain ⟨rep, cfgs⟩ := x
      rw [hml] at h3
      dsimp only at h3
      cases hvm : validate_marketplace w.marketplace rep cfgs with
      | error e => rw [hvm] at h3; exact absurd h3 (by simp)
      | ok rep1 =>
        rw [hvm] at h3
        have hr : r = ⟨if reportPassed rep1 then 0 else 1, rep1, true⟩ := by
          cases h3; rfl
        subst hr
        cases hrp : reportPassed rep1 with
        | true =>
          simp only [hrp, if_true]
          exact ⟨fun _ => (reportPassed_iff rep1).1 hrp, fun _ => trivial⟩
        | false =>
          simp only [hrp, if_false]
          constructor
          · intro h; exact absurd h (by simp)
          · intro h
            exact absurd ((reportPassed_iff rep1).2 h) (by simp [hrp])
  · intro w h
    cases hroot : w.pluginsRootExists with
    | false => simp [main', hroot]
    | true =>
      cases h with
      | inl hl => rw [hl] at hroot; exact absurd hroot (by simp)
      | inr hr => simp [main', hroot, hr, sortByName]

/-- Witness for the amended C2 theorem at the concrete clean demo run. -/
theorem c2_exit_status_from_report_witness :
    ((⟨0, demoReport, true⟩ : RunResult).exitCode = 0 ↔ reportErrors demoReport = []) :=
  c2_exit_status_from_report.1 demoWorld ⟨0, demoReport, true⟩ rfl
    (by simp [demoWorld]) rfl

/-- C4 (amended): the manifest check agrees with the spec-side case analysis
`specManifestCheck` on every plugin directory and every incoming report —
exactly one outcome is appended and no manifest returned for an absent file
("File not found"), for a loader `None` (unparsable content OR the JSON
literal `null`, both labelled "Invalid JSON syntax"), and for a loaded value
missing required keys (message naming exactly the missing keys among
name, version, description in declared order); otherwise a passing outcome
with empty message is appended and the parsed manifest returned — except
that a read failing with a non-`FileNotFoundError` OS error, or a loaded
value supporting no membership test, makes the exception propagate with no
outcome recorded at all. -/
theorem c4_manifest_check_matches_spec (p : PluginDir) (report : List ValidationResult) :
    validate_plugin_json p report =
      match specManifestCheck p with
      | Except.ok (out, cfg) => Except.ok (report ++ [out], cfg)
      | Except.error e => Except.error (e, report) := by
  cases hm : p.manifest with
  | absent =>
    simp [validate_plugin_json, specManifestCheck, hm, FileState.onDisk]
  | unreadable =>
    simp [validate_plugin_json, specManifestCheck, hm, FileState.onDisk, load_json]
  | invalidJson =>
    simp [validate_plugin_json, specManifestCheck, hm, FileState.onDisk, load_json,
      PyValue.isNone]
  | parsed v =>
    cases v with
    | none =>
      simp [validate_plugin_json, specManifestCheck, hm, FileState.onDisk, load_json,
        PyValue.isNone]
    | bool b =>
      simp [validate_plugin_json, specManifestCheck, hm, FileState.onDisk, load_json,
        PyValue.isNone, membershipSafe, missingFields, pyIn, REQUIRED_PLUGIN_FIELDS]
    | int n =>
      simp [validate_plugin_json, specManifestCheck, hm, FileState.onDisk, load_json,
        PyValue.isNone, membershipSafe, missingFields, pyIn, REQUIRED_PLUGIN_FIELDS]
    | str s =>
      simp only [validate_plugin_json, specManifestCheck, hm, FileState.onDisk,
        load_json, PyValue.isNone, membershipSafe,
        missingFields_safe _ _ (rfl : membershipSafe (PyValue.str s) = true)]
      cases hmiss : (REQUIRED_PLUGIN_FIELDS.filter
          fun f => !specMem f (PyValue.str s)).isEmpty <;> simp [hmiss]
    | list xs =>
      simp only [validate_plugin_json, specManifestCheck, hm, FileState.onDisk,
        load_json, PyValue.isNone, membershipSafe,
        missingFields_safe _ _ (rfl : membershipSafe (PyValue.list xs) = true)]
      cases hmiss : (REQUIRED_PLUGIN_FIELDS.filter
          fun f => !specMem f (PyValue.list xs)).isEmpty <;> simp [hmiss]
    | dict kvs =>
      simp only [validate_plugin_json, specManifestCheck, hm, FileState.onDisk,
        load_json, PyValue.isNone, membershipSafe,
        missingFields_safe _ _ (rfl : membershipSafe (PyValue.dict kvs) = true)]
      cases hmiss : (REQUIRED_PLUGIN_FIELDS.filter
          fun f => !specMem f (PyValue.dict kvs)).isEmpty <;> simp [hmiss]

theorem validate_plugin_json_benign (p : PluginDir) (report : List ValidationResult)
    (h : benignManifest p.manifest = true) :
    ∃ out cfg, validate_plugin_json p report = Except.ok (report ++ [out], cfg) ∧
      out.plugin = p.name ∧ out.check = "plugin.json" ∧
      (out.passed = false → cfg = Option.none) := by
  cases hm : p.manifest with
  | absent =>
    refine ⟨⟨p.name, "plugin.json", false, "File not found"⟩, Option.none, ?_, rfl, rfl,
      fun _ => rfl⟩
    simp [validate_plugin_json, hm, FileState.onDisk]
  | unreadable => rw [hm] at h; exact absurd h (by simp [benignManifest])
  | invalidJson =>
    refine ⟨⟨p.name, "plugin.json", false, "Invalid JSON syntax"⟩, Option.none, ?_, rfl,
      rfl, fun _ => rfl⟩
    simp [validate_plugin_json, hm, FileState.onDisk, load_json, PyValue.isNone]
  | parsed v =>
    rw [hm] at h
    cases hnull : v.isNone with
    | true =>
      have hv : v = PyValue.none := by
        cases v <;> first | rfl | simp [PyValue.isNone] at hnull
      refine ⟨⟨p.name, "plugin.json", false, "Invalid JSON syntax"⟩, Option.none, ?_, rfl,
        rfl, fun _ => rfl⟩
      simp [validate_plugin_json, hm, hv, FileState.onDisk, load_json, PyValue.isNone]
    | false =>
      have hs : membershipSafe v = true := by
        simp [benignManifest, hnull] at h; exact h
      cases hmiss : (REQUIRED_PLUGIN_FIELDS.filter fun f => !specMem f v).isEmpty with
      | true =>
        refine ⟨⟨p.name, "plugin.json", true, ""⟩, Option.some v, ?_, rfl, rfl,
          fun hc => absurd hc (by simp)⟩
        simp [validate_plugin_json, hm, FileState.onDisk, load_json, hnull,
          missingFields_safe _ _ hs, hmiss]
      | false =>
        refine ⟨⟨p.name, "plugin.json", false, "Missing required fields: " ++
          pyReprStrList (REQUIRED_PLUGIN_FIELDS.filter fun f => !specMem f v)⟩,
          Option.none, ?_, rfl, rfl, fun _ => rfl⟩
        simp [validate_plugin_json, hm, FileState.onDisk, load_json, hnull,
          missingFields_safe _ _ hs, hmiss]

theorem validate_readme_append (p : PluginDir) (rep : List ValidationResult) :
    ∃ r, validate_readme p rep = rep ++ [r] ∧ r.check = "README.md" := by
  cases hb : p.readmeExists with
  | true => exact ⟨⟨p.name, "README.md", true, ""⟩, by simp [validate_readme, hb], rfl⟩
  | false =>
    exact ⟨⟨p.name, "README.md", false, "File not found"⟩,
      by simp [validate_readme, hb], rfl⟩

theorem validate_skill_append (p : PluginDir) (rep : List ValidationResult) :
    ∃ s, validate_skill p rep = rep ++ [s] ∧ s.check = "SKILL.md" := by
  cases hd : p.skillsDir with
  | none =>
    exact ⟨⟨p.name, "SKILL.md", true, "WARNING: No skills directory"⟩,
      by simp [validate_skill, hd], rfl⟩
  | some fs =>
    cases hf : fs.isEmpty with
    | true =>
      exact ⟨⟨p.name, "SKILL.md", true, "WARNING: No SKILL.md found"⟩,
        by simp [validate_skill, hd, hf], rfl⟩
    | false =>
      exact ⟨⟨p.name, "SKILL.md", true, ""⟩, by simp [validate_skill, hd, hf], rfl⟩

theorem validate_commands_append (p : PluginDir) (rep : List ValidationResult) :
    ∃ c, validate_commands p rep = rep ++ [c] ∧ c.check = "commands" := by
  cases hd : p.commandsDir with
  | none =>
    exact ⟨⟨p.name, "commands", true, "WARNING: No commands directory"⟩,
      by simp [validate_commands, hd], rfl⟩
  | some fs =>
    cases hf : fs.isEmpty with
    | true =>
      exact ⟨⟨p.name, "commands", true, "WARNING: No command files found"⟩,
        by simp [validate_commands, hd, hf], rfl⟩
    | false =>
      exact ⟨⟨p.name, "commands", true, ""⟩, by simp [validate_commands, hd, hf], rfl⟩

/-- C5 (amended): for every plugin directory whose manifest check completes
without an uncaught exception (the manifest file is absent, or readable with
a parsed value that is `null` or supports membership tests), all four checks
run and each appends exactly one outcome — four outcomes per plugin, in
source order manifest, README, skills, commands — even when the manifest
check records a failure; and a plugin whose manifest check fails yields no
stored manifest, which is what excludes it from the registry cross-check
while the other three checks still ran.  (When the manifest check raises —
unreadable file, or a parsed value with no membership test — the exception
skips the remaining checks; see the counterexample.) -/
theorem c5_four_outcomes_per_plugin (p : PluginDir) (report : List ValidationResult)
    (h : benignManifest p.manifest = true) :
    ∃ m r s c cfg,
      validate_plugin p report = Except.ok (report ++ [m, r, s, c], cfg) ∧
      m.check = "plugin.json" ∧ r.check = "README.md" ∧ s.check = "SKILL.md" ∧
      c.check = "commands" ∧ (m.passed = false → cfg = Option.none) := by
  obtain ⟨m, cfg, hvp, hplug, hmc, himpl⟩ := validate_plugin_json_benign p report h
  obtain ⟨r, hr, hrc⟩ := validate_readme_append p (report ++ [m])
  obtain ⟨s, hs, hsc⟩ := validate_skill_append p (report ++ [m] ++ [r])
  obtain ⟨c, hc, hcc⟩ := validate_commands_append p (report ++ [m] ++ [r] ++ [s])
  refine ⟨m, r, s, c, cfg, ?_, hmc, hrc, hsc, hcc, himpl⟩
  simp only [validate_plugin, hvp, hr, hs, hc]
  simp [List.append_assoc]

/-- Witness for the amended C5 theorem at the concrete demo plugin. -/
theorem c5_four_outcomes_per_plugin_witness :
    ∃ m r s c cfg,
      validate_plugin demoPlugin [] = Except.ok ([] ++ [m, r, s, c], cfg) ∧
      m.check = "plugin.json" ∧ r.check = "README.md" ∧ s.check = "SKILL.md" ∧
      c.check = "commands" ∧ (m.passed = false → cfg = Option.none) :=
  c5_four_outcomes_per_plugin demoPlugin [] rfl

theorem missingFields_dict_all_present (fields : List String)
    (kvs : List (String × PyValue))
    (h : (fields.all fun f => kvs.any fun kv => kv.1 == f) = true) :
    missingFields fields (PyValue.dict kvs) = Except.ok [] := by
  rw [missingFields_safe fields (PyValue.dict kvs) rfl]
  refine congrArg Except.ok ?_
  rw [List.filter_eq_nil_iff]
  intro f hf
  have hp := List.all_eq_true.mp h f hf
  simp [specMem, hp]

/-- C6: a registry entry having all required keys, whose name equals the
directory name of a plugin with a successfully loaded (object-valued)
manifest, gets exactly one outcome with check tag `version:<name>`: passing
when the entry's version equals the manifest's version, failing with a
message stating both version values when they differ. -/
theorem c6_version_crosscheck_matched_entry
    (ekvs mkvs cfgs : List (String × PyValue)) (n : String) (pv mv : PyValue)
    (rest : List PyValue) (report : List ValidationResult)
    (hname : dictLookup ekvs "name" = Option.some (PyValue.str n))
    (hkeys : (REQUIRED_MARKETPLACE_PLUGIN_FIELDS.all fun f =>
      ekvs.any fun kv => kv.1 == f) = true)
    (hfind : (cfgs.find? fun kv => pyBeq (PyValue.str kv.1) (PyValue.str n)) =
      Option.some (n, PyValue.dict mkvs))
    (hpv : dictLookup mkvs "version" = Option.some pv)
    (hmv : dictLookup ekvs "version" = Option.some mv) :
    marketplaceEntriesLoop (PyValue.dict ekvs :: rest) cfgs report =
      marketplaceEntriesLoop rest cfgs (report ++
        [if pyBeq pv mv then ⟨"marketplace", "version:" ++ n, true, ""⟩
         else ⟨"marketplace", "version:" ++ n, false,
           "Version mismatch: plugin.json=" ++ pyStr pv ++
             ", marketplace.json=" ++ pyStr mv⟩]) := by
  have hmf := missingFields_dict_all_present REQUIRED_MARKETPLACE_PLUGIN_FIELDS ekvs hkeys
  simp only [marketplaceEntriesLoop, pyGet, hname, hmf, hfind, pyHashable, pyStr,
    hpv, hmv]
  cases hb : pyBeq pv mv <;> simp [hb, hpv, hmv]

/-- Witness for C6 at the spec's concrete Scenario D: entry version "2.0"
against manifest version "1.0". -/
theorem c6_version_crosscheck_matched_entry_witness :
    marketplaceEntriesLoop [PyValue.dict entryFixture] cfgsFixture [] =
      marketplaceEntriesLoop [] cfgsFixture ([] ++
        [if pyBeq (PyValue.str "1.0") (PyValue.str "2.0") then
          ⟨"marketplace", "version:" ++ "demo", true, ""⟩
         else ⟨"marketplace", "version:" ++ "demo", false,
           "Version mismatch: plugin.json=" ++ pyStr (PyValue.str "1.0") ++
             ", marketplace.json=" ++ pyStr (PyValue.str "2.0")⟩]) :=
  c6_version_crosscheck_matched_entry entryFixture demoManifest cfgsFixture "demo"
    (PyValue.str "1.0") (PyValue.str "2.0") [] [] rfl (by decide) rfl rfl rfl

/-- C7: a registry entry having all required keys but whose name matches no
plugin directory with a successfully loaded manifest is skipped silently: no
version comparison happens and no outcome of any kind is appended for that
entry — the loop continues on the remaining entries with the report
unchanged. -/
theorem c7_unmatched_entry_silent_skip
    (ekvs cfgs : List (String × PyValue)) (n : String)
    (rest : List PyValue) (report : List ValidationResult)
    (hname : dictLookup ekvs "name" = Option.some (PyValue.str n))
    (hkeys : (REQUIRED_MARKETPLACE_PLUGIN_FIELDS.all fun f =>
      ekvs.any fun kv => kv.1 == f) = true)
    (hfind : (cfgs.find? fun kv => pyBeq (PyValue.str kv.1) (PyValue.str n)) =
      Option.none) :
    marketplaceEntriesLoop (PyValue.dict ekvs :: rest) cfgs report =
      marketplaceEntriesLoop rest cfgs report := by
  have hmf := missingFields_dict_all_present REQUIRED_MARKETPLACE_PLUGIN_FIELDS ekvs hkeys
  simp [marketplaceEntriesLoop, pyGet, hname, hmf, hfind, pyHashable]

/-- Witness for C7: an entry named "ghost" against configs holding only
"demo". -/
theorem c7_unmatched_entry_silent_skip_witness :
    marketplaceEntriesLoop [PyValue.dict ghostEntry] cfgsFixture [] =
      marketplaceEntriesLoop [] cfgsFixture [] :=
  c7_unmatched_entry_silent_skip ghostEntry cfgsFixture "ghost" [] [] rfl
    (by decide) rfl

/-- C8: the registry checker records a passing outcome with a warning message
and stops when the registry file does not exist; records a failing outcome
with message "Invalid JSON syntax" and stops whenever the file exists but the
loader yields its `None` sentinel (the "fails to parse" case of the loader
contract); and records a failing outcome naming the missing keys among
name, description, plugins and stops when the loaded object is incomplete.
In each of the three cases exactly one outcome is appended, so no per-entry
outcome is recorded. -/
theorem c8_registry_preamble :
    (∀ report cfgs, validate_marketplace FileState.absent report cfgs =
        Except.ok (report ++
          [⟨"marketplace", "marketplace.json", true, "WARNING: File not found"⟩])) ∧
    (∀ m report cfgs, m.onDisk = true → load_json m = Except.ok PyValue.none →
        validate_marketplace m report cfgs =
          Except.ok (report ++
            [⟨"marketplace", "marketplace.json", false, "Invalid JSON syntax"⟩])) ∧
    (∀ kvs report cfgs,
        (REQUIRED_MARKETPLACE_FIELDS.filter fun f => !specMem f (PyValue.dict kvs)) ≠
          [] →
        validate_marketplace (FileState.parsed (PyValue.dict kvs)) report cfgs =
          Except.ok (report ++ [⟨"marketplace", "marketplace.json", false,
            "Missing required fields: " ++ pyReprStrList
              (REQUIRED_MARKETPLACE_FIELDS.filter
                fun f => !specMem f (PyValue.dict kvs))⟩])) := by
  refine ⟨?_, ?_, ?_⟩
  · intro report cfgs
    simp [validate_marketplace, FileState.onDisk]
  · intro m report cfgs h1 h2
    cases m with
    | absent => simp [FileState.onDisk] at h1
    | unreadable => simp [load_json] at h2
    | invalidJson =>
      simp [validate_marketplace, FileState.onDisk, load_json, PyValue.isNone]
    | parsed v =>
      have hv : v = PyValue.none := by
        simpa [load_json] using h2
      simp [validate_marketplace, FileState.onDisk, load_json, hv, PyValue.isNone]
  · intro kvs report cfgs hne
    have hlem : (REQUIRED_MARKETPLACE_FIELDS.filter
        fun f => !specMem f (PyValue.dict kvs)).isEmpty = false := by
      cases hh : (REQUIRED_MARKETPLACE_FIELDS.filter
          fun f => !specMem f (PyValue.dict kvs)).isEmpty with
      | true => exact absurd (by simpa using hh) hne
      | false => rfl
    simp [validate_marketplace, FileState.onDisk, load_json, PyValue.isNone,
      missingFields_safe REQUIRED_MARKETPLACE_FIELDS (PyValue.dict kvs) rfl, hlem]

/-- Witness for C8 at a concrete empty registry object, which is missing all
three required keys. -/
theorem c8_registry_preamble_witness :
    validate_marketplace (FileState.parsed (PyValue.dict [])) [] [] =
      Except.ok ([] ++ [⟨"marketplace", "marketplace.json", false,
        "Missing required fields: " ++ pyReprStrList
          (REQUIRED_MARKETPLACE_FIELDS.filter
            fun f => !specMem f (PyValue.dict []))⟩]) :=
  c8_registry_preamble.2.2 [] [] [] (by decide)
